import Mathlib

/-!
Verification development for the dinder group swipe-consensus engine
(`src/services/matching.js`).

Firestore is modelled shallowly: a collection is an association list from
document id to document, `setDoc` is create-or-overwrite at a key, `getDoc`
is lookup, and a `getDocs` field query is a scan over the collection.  The
functions `requiredSwipes`, `saveSwipe`, `createMatch`, `saveRecipeSwipe`
and `createRecipeMatch` are translated from the source; `serverTimestamp()`
is modelled by an explicit `now : Nat` argument.
-/

namespace Dinder

/-- A Firestore collection: an association list from document id to document. -/
abbrev Coll (α : Type) : Type := List (String × α)

/-- `setDoc`: create-or-overwrite the document at id `k`. -/
def setDoc (c : Coll α) (k : String) (v : α) : Coll α :=
  (k, v) :: c.filter (fun kv => kv.1 != k)

/-- `getDoc`: look up the document at id `k` (`none` = document does not exist). -/
def getDoc (c : Coll α) (k : String) : Option α :=
  (c.find? (fun kv => kv.1 == k)).map (·.2)

/-- The `restaurantData` argument of `saveSwipe` (opaque display metadata). -/
structure RestaurantData where
  name : String
  photo : String
  rating : String
  cuisines : String
  address : String
  priceLevel : String
deriving DecidableEq

/-- A document of the `swipes` collection, as written by `saveSwipe`. -/
structure SwipeDoc where
  userId : String
  placeId : String
  groupId : Option String
  direction : String
  restaurantName : String
  restaurantPhoto : String
  restaurantRating : String
  restaurantCuisines : String
  restaurantAddress : String
  timestamp : Nat
deriving DecidableEq

/-- A document of the `groups` collection (only the `members` array is read). -/
structure GroupDoc where
  members : List String
deriving DecidableEq

/-- A document of the `matches` collection, as written by `createMatch`. -/
structure MatchDoc where
  groupId : String
  members : List String
  memberCount : Nat
  rightCount : Nat
  unanimous : Bool
  placeId : String
  restaurantName : String
  restaurantPhoto : String
  restaurantRating : String
  restaurantCuisines : String
  restaurantAddress : String
  restaurantPriceLevel : String
  matchedAt : Nat
  status : String
deriving DecidableEq

/-- The `recipeData` argument of `saveRecipeSwipe`; fields that
`createRecipeMatch` defaults with `|| …` are `Option`s. -/
structure RecipeData where
  title : String
  image : String
  summary : Option String
  readyInMinutes : Option Nat
  servings : Option Nat
  cuisines : Option (List String)
  diets : Option (List String)
  ingredients : Option (List String)
  sourceUrl : Option String
deriving DecidableEq

/-- A document of the `recipeSwipes` collection, as written by `saveRecipeSwipe`. -/
structure RecipeSwipeDoc where
  userId : String
  recipeId : Nat
  groupId : String
  direction : String
  recipeTitle : String
  recipeImage : String
  timestamp : Nat
deriving DecidableEq

/-- A document of the `recipeMatches` collection, as written by `createRecipeMatch`. -/
structure RecipeMatchDoc where
  groupId : String
  members : List String
  memberCount : Nat
  rightCount : Nat
  unanimous : Bool
  recipeId : Nat
  recipeTitle : String
  recipeImage : String
  recipeSummary : String
  readyInMinutes : Nat
  servings : Nat
  cuisines : List String
  diets : List String
  ingredients : List String
  sourceUrl : Option String
  matchedAt : Nat
  status : String
deriving DecidableEq

/-- The Firestore database state touched by `matching.js`. -/
structure DB where
  groups : Coll GroupDoc
  swipes : Coll SwipeDoc
  matchDocs : Coll MatchDoc
  recipeSwipes : Coll RecipeSwipeDoc
  recipeMatches : Coll RecipeMatchDoc
deriving DecidableEq

/-- `requiredSwipes(memberCount)` from the source: groups of at most 3 are
unanimous, larger groups need a strict majority `floor(memberCount/2) + 1`. -/
def requiredSwipes (memberCount : Nat) : Nat :=
  if memberCount ≤ 3 then memberCount else memberCount / 2 + 1

/-- UTF-16-style lexicographic comparison of char lists (JS default
`Array.prototype.sort` compares strings by code units). -/
def charsLe : List Char → List Char → Bool
  | [], _ => true
  | _ :: _, [] => false
  | a :: as, b :: bs =>
    if a.toNat < b.toNat then true
    else if b.toNat < a.toNat then false
    else charsLe as bs

/-- Lexicographic `≤` on strings, as used by JS `members.sort()`. -/
def strLe (a b : String) : Bool := charsLe a.data b.data

/-- Insert into a sorted list of strings. -/
def insertSorted (x : String) : List String → List String
  | [] => [x]
  | y :: ys => if strLe x y then x :: y :: ys else y :: insertSorted x ys

/-- `members.sort()`: sort the member ids lexicographically. -/
def sortStrings : List String → List String
  | [] => []
  | x :: xs => insertSorted x (sortStrings xs)

/-- The swipe document id `` `${userId}_${groupKey}_${placeId}` `` where
`groupKey = groupId || 'solo'`. -/
def swipeKey (userId : String) (groupId : Option String) (placeId : String) : String :=
  userId ++ "_" ++ groupId.getD "solo" ++ "_" ++ placeId

/-- The match document id `` `${groupId}_${placeId}` ``. -/
def matchKey (groupId placeId : String) : String :=
  groupId ++ "_" ++ placeId

/-- The swipe document written by `saveSwipe` (note: `groupId: groupId || null`,
and no `priceLevel` is stored on the swipe). -/
def swipeDocFor (userId : String) (groupId : Option String) (placeId direction : String)
    (restaurantData : RestaurantData) (now : Nat) : SwipeDoc :=
  { userId := userId
    placeId := placeId
    groupId := groupId
    direction := direction
    restaurantName := restaurantData.name
    restaurantPhoto := restaurantData.photo
    restaurantRating := restaurantData.rating
    restaurantCuisines := restaurantData.cuisines
    restaurantAddress := restaurantData.address
    timestamp := now }

/-- The initial `setDoc(doc(db, 'swipes', swipeId), …)` of `saveSwipe`. -/
def afterVote (db : DB) (userId : String) (groupId : Option String) (placeId direction : String)
    (restaurantData : RestaurantData) (now : Nat) : DB :=
  { db with
      swipes := setDoc db.swipes (swipeKey userId groupId placeId)
        (swipeDocFor userId groupId placeId direction restaurantData now) }

/-- The per-member `getDocs` query of the vote-count loop: is there a swipe
document with `userId == memberId`, `placeId == placeId`, `groupId == groupId`
and `direction == 'right'`? -/
def memberSwipedRight (swipes : Coll SwipeDoc) (memberId placeId groupId : String) : Bool :=
  swipes.any fun kv =>
    kv.2.userId == memberId && kv.2.placeId == placeId &&
      kv.2.groupId == some groupId && kv.2.direction == "right"

/-- The vote-count loop of `saveSwipe`: `rightCount` starts at 1 (the current
user just swiped right) and is incremented for every other member whose query
comes back non-empty. -/
def restRightCount (swipes : Coll SwipeDoc) (members : List String)
    (userId placeId groupId : String) : Nat :=
  (members.filter (fun m => m != userId)).foldl
    (fun cnt m => if memberSwipedRight swipes m placeId groupId then cnt + 1 else cnt) 1

/-- `createMatch(groupId, placeId, restaurantData, members, rightCount)`. -/
def createMatch (db : DB) (groupId placeId : String) (restaurantData : RestaurantData)
    (members : List String) (rightCount : Nat) (now : Nat) : DB × MatchDoc :=
  let matchId := matchKey groupId placeId
  let total := members.length
  let matchData : MatchDoc :=
    { groupId := groupId
      members := sortStrings members
      memberCount := total
      rightCount := rightCount
      unanimous := rightCount == total
      placeId := placeId
      restaurantName := restaurantData.name
      restaurantPhoto := restaurantData.photo
      restaurantRating := restaurantData.rating
      restaurantCuisines := restaurantData.cuisines
      restaurantAddress := restaurantData.address
      restaurantPriceLevel := restaurantData.priceLevel
      matchedAt := now
      status := "active" }
  ({ db with matchDocs := setDoc db.matchDocs matchId matchData }, matchData)

/-- The match-evaluation part of `saveSwipe` (everything after the swipe
write): guard `direction === 'right' && groupId`, group lookup, member-count
guard, threshold, vote-count loop, existing-match check, conditional create. -/
def evalRestaurantMatch (db : DB) (userId : String) (groupId : Option String)
    (placeId direction : String) (restaurantData : RestaurantData) (now : Nat) :
    DB × Option MatchDoc :=
  if direction = "right" then
    match groupId with
    | none => (db, none)
    | some gid =>
      match getDoc db.groups gid with
      | none => (db, none)
      | some groupData =>
        let members := groupData.members
        if members.length < 2 then (db, none)
        else
          let threshold := requiredSwipes members.length
          let rightCount := restRightCount db.swipes members userId placeId gid
          if threshold ≤ rightCount then
            match getDoc db.matchDocs (matchKey gid placeId) with
            | some _ => (db, none)
            | none =>
              let created := createMatch db gid placeId restaurantData members rightCount now
              (created.1, some created.2)
          else (db, none)
  else (db, none)

/-- `saveSwipe(userId, groupId, placeId, direction, restaurantData)`: persist
the swipe document, then (for an affirmative vote in a group) evaluate the
group for a match. -/
def saveSwipe (db : DB) (userId : String) (groupId : Option String) (placeId direction : String)
    (restaurantData : RestaurantData) (now : Nat) : DB × Option MatchDoc :=
  evalRestaurantMatch (afterVote db userId groupId placeId direction restaurantData now)
    userId groupId placeId direction restaurantData now

example :
    requiredSwipes 2 = 2 ∧ requiredSwipes 3 = 3 ∧ requiredSwipes 4 = 3 ∧
      requiredSwipes 5 = 3 ∧ requiredSwipes 0 = 0 ∧ requiredSwipes 1 = 1 := by decide

/-- The recipe-swipe document id `` `${userId}_${groupId}_${recipeId}` ``. -/
def recipeSwipeKey (userId groupId : String) (recipeId : Nat) : String :=
  userId ++ "_" ++ groupId ++ "_" ++ toString recipeId

/-- The recipe-match document id `` `${groupId}_recipe_${recipeId}` ``. -/
def recipeMatchKey (groupId : String) (recipeId : Nat) : String :=
  groupId ++ "_recipe_" ++ toString recipeId

/-- The recipe-swipe document written by `saveRecipeSwipe`. -/
def recipeSwipeDocFor (userId groupId : String) (recipeId : Nat) (direction : String)
    (recipeData : RecipeData) (now : Nat) : RecipeSwipeDoc :=
  { userId := userId
    recipeId := recipeId
    groupId := groupId
    direction := direction
    recipeTitle := recipeData.title
    recipeImage := recipeData.image
    timestamp := now }

/-- The initial `setDoc(doc(db, 'recipeSwipes', swipeId), …)` of `saveRecipeSwipe`. -/
def afterRecipeVote (db : DB) (userId groupId : String) (recipeId : Nat) (direction : String)
    (recipeData : RecipeData) (now : Nat) : DB :=
  { db with
      recipeSwipes := setDoc db.recipeSwipes (recipeSwipeKey userId groupId recipeId)
        (recipeSwipeDocFor userId groupId recipeId direction recipeData now) }

/-- The per-member `getDocs` query of the recipe vote-count loop. -/
def recipeSwipedRight (recipeSwipes : Coll RecipeSwipeDoc) (memberId : String)
    (recipeId : Nat) (groupId : String) : Bool :=
  recipeSwipes.any fun kv =>
    kv.2.userId == memberId && kv.2.recipeId == recipeId &&
      kv.2.groupId == groupId && kv.2.direction == "right"

/-- The vote-count loop of `saveRecipeSwipe`: `rightCount` starts at 1 and is
incremented for every other member whose query comes back non-empty. -/
def recipeRightCount (recipeSwipes : Coll RecipeSwipeDoc) (members : List String)
    (userId : String) (recipeId : Nat) (groupId : String) : Nat :=
  (members.filter (fun m => m != userId)).foldl
    (fun cnt m => if recipeSwipedRight recipeSwipes m recipeId groupId then cnt + 1 else cnt) 1

/-- `createRecipeMatch(groupId, recipeId, recipeData, members, rightCount)`. -/
def createRecipeMatch (db : DB) (groupId : String) (recipeId : Nat) (recipeData : RecipeData)
    (members : List String) (rightCount : Nat) (now : Nat) : DB × RecipeMatchDoc :=
  let matchId := recipeMatchKey groupId recipeId
  let total := members.length
  let matchData : RecipeMatchDoc :=
    { groupId := groupId
      members := sortStrings members
      memberCount := total
      rightCount := rightCount
      unanimous := rightCount == total
      recipeId := recipeId
      recipeTitle := recipeData.title
      recipeImage := recipeData.image
      recipeSummary := recipeData.summary.getD ""
      readyInMinutes := recipeData.readyInMinutes.getD 0
      servings := recipeData.servings.getD 0
      cuisines := recipeData.cuisines.getD []
      diets := recipeData.diets.getD []
      ingredients := recipeData.ingredients.getD []
      sourceUrl := recipeData.sourceUrl
      matchedAt := now
      status := "active" }
  ({ db with recipeMatches := setDoc db.recipeMatches matchId matchData }, matchData)

/-- The match-evaluation part of `saveRecipeSwipe` (everything after the
recipe-swipe write); `groupId` is a plain string here, so the JS truthiness
guard `direction === 'right' && groupId` reads as `groupId ≠ ""`. -/
def evalRecipeMatch (db : DB) (userId groupId : String) (recipeId : Nat)
    (direction : String) (recipeData : RecipeData) (now : Nat) : DB × Option RecipeMatchDoc :=
  if direction = "right" ∧ groupId ≠ "" then
    match getDoc db.groups groupId with
    | none => (db, none)
    | some groupData =>
      let members := groupData.members
      if members.length < 2 then (db, none)
      else
        let threshold := requiredSwipes members.length
        let rightCount := recipeRightCount db.recipeSwipes members userId recipeId groupId
        if threshold ≤ rightCount then
          match getDoc db.recipeMatches (recipeMatchKey groupId recipeId) with
          | some _ => (db, none)
          | none =>
            let created := createRecipeMatch db groupId recipeId recipeData members rightCount now
            (created.1, some created.2)
        else (db, none)
  else (db, none)

/-- `saveRecipeSwipe(userId, groupId, recipeId, direction, recipeData)`:
persist the recipe-swipe document, then evaluate the group for a match. -/
def saveRecipeSwipe (db : DB) (userId groupId : String) (recipeId : Nat) (direction : String)
    (recipeData : RecipeData) (now : Nat) : DB × Option RecipeMatchDoc :=
  evalRecipeMatch (afterRecipeVote db userId groupId recipeId direction recipeData now)
    userId groupId recipeId direction recipeData now

example : recipeSwipeKey "a" "g" 7 = "a_g_7" := rfl

example : recipeMatchKey "g" 12 = "g_recipe_12" := rfl

/-- The field names of the `matchData` object literal in `createMatch`, in
source order. -/
def matchDataFieldNames : List String :=
  ["groupId", "members", "memberCount", "rightCount", "unanimous", "placeId",
   "restaurantName", "restaurantPhoto", "restaurantRating", "restaurantCuisines",
   "restaurantAddress", "restaurantPriceLevel", "matchedAt", "status"]

/-!
## Interleaving model of concurrent `saveSwipe` calls

Each `await`ed Firestore operation of `saveSwipe` is one atomic step; between
two steps of one call, steps of a concurrent call may run.  The program
counter follows the source line by line: write the swipe, read the group doc,
run the per-member vote queries one at a time, compare against the threshold,
read the existing-match doc, and finally (conditionally) write the match doc.
-/

/-- Program counter of an in-flight `saveSwipe` call. -/
inductive PC
  | writeVote
  | readGroup
  | queryVotes
  | checkThreshold
  | checkExisting
  | writeMatch
  | finished
deriving DecidableEq

/-- An in-flight `saveSwipe` call: its arguments, its program counter, and its
local variables (`members`, the members still to query, `rightCount`, and the
value it will return). -/
structure Thread where
  userId : String
  groupId : Option String
  placeId : String
  direction : String
  restaurantData : RestaurantData
  pc : PC
  members : List String
  pending : List String
  rightCount : Nat
  result : Option MatchDoc
deriving DecidableEq

/-- A fresh `saveSwipe` call that has not executed any step yet. -/
def Thread.mk0 (userId : String) (groupId : Option String) (placeId direction : String)
    (restaurantData : RestaurantData) : Thread :=
  { userId := userId, groupId := groupId, placeId := placeId, direction := direction
    restaurantData := restaurantData, pc := .writeVote, members := [], pending := []
    rightCount := 0, result := none }

/-- One atomic step of an in-flight `saveSwipe` call against the shared
database.  Each branch mirrors the corresponding statement of the source. -/
def step (now : Nat) (db : DB) (t : Thread) : DB × Thread :=
  match t.pc with
  | .writeVote =>
    let db := afterVote db t.userId t.groupId t.placeId t.direction t.restaurantData now
    if t.direction = "right" then
      match t.groupId with
      | some _ => (db, { t with pc := .readGroup })
      | none => (db, { t with pc := .finished })
    else (db, { t with pc := .finished })
  | .readGroup =>
    match t.groupId with
    | none => (db, { t with pc := .finished })
    | some gid =>
      match getDoc db.groups gid with
      | none => (db, { t with pc := .finished })
      | some groupData =>
        if groupData.members.length < 2 then (db, { t with pc := .finished })
        else
          (db, { t with pc := .queryVotes, members := groupData.members,
                        pending := groupData.members.filter (fun m => m != t.userId),
                        rightCount := 1 })
  | .queryVotes =>
    match t.pending with
    | [] => (db, { t with pc := .checkThreshold })
    | m :: rest =>
      match t.groupId with
      | none => (db, { t with pc := .finished })
      | some gid =>
        let rc := if memberSwipedRight db.swipes m t.placeId gid
                  then t.rightCount + 1 else t.rightCount
        (db, { t with pending := rest, rightCount := rc })
  | .checkThreshold =>
    if requiredSwipes t.members.length ≤ t.rightCount then
      (db, { t with pc := .checkExisting })
    else (db, { t with pc := .finished })
  | .checkExisting =>
    match t.groupId with
    | none => (db, { t with pc := .finished })
    | some gid =>
      match getDoc db.matchDocs (matchKey gid t.placeId) with
      | some _ => (db, { t with pc := .finished, result := none })
      | none => (db, { t with pc := .writeMatch })
  | .writeMatch =>
    match t.groupId with
    | none => (db, { t with pc := .finished })
    | some gid =>
      let created := createMatch db gid t.placeId t.restaurantData t.members t.rightCount now
      (created.1, { t with pc := .finished, result := some created.2 })
  | .finished => (db, t)

/-- Run two concurrent `saveSwipe` calls under an explicit schedule:
`true` steps the first call, `false` steps the second. -/
def run2 (now : Nat) (sched : List Bool) (db : DB) (t1 t2 : Thread) : DB × Thread × Thread :=
  match sched with
  | [] => (db, t1, t2)
  | b :: rest =>
    if b then
      let s := step now db t1
      run2 now rest s.1 s.2 t2
    else
      let s := step now db t2
      run2 now rest s.1 t1 s.2

/-- Run one `saveSwipe` call alone to completion (with step budget `fuel`). -/
def runAlone (now : Nat) (fuel : Nat) (db : DB) (t : Thread) : DB × Thread :=
  match fuel with
  | 0 => (db, t)
  | fuel + 1 =>
    let s := step now db t
    runAlone now fuel s.1 s.2

/-- Concrete restaurant metadata used by the race scenario. -/
def rdX : RestaurantData :=
  { name := "Pizza", photo := "ph", rating := "4.5", cuisines := "Italian",
    address := "1 Main St", priceLevel := "2" }

/-- Race scenario: a 3-member group `g = \x7ba, b, c\x7d` (unanimous policy) in
which `a` has already swiped right on place `p`. -/
def raceDB : DB :=
  { groups := [("g", { members := ["a", "b", "c"] })]
    swipes := [(swipeKey "a" (some "g") "p", swipeDocFor "a" (some "g") "p" "right" rdX 0)]
    matchDocs := []
    recipeSwipes := []
    recipeMatches := [] }

/-- Member `b`'s concurrent affirmative `saveSwipe` call. -/
def raceT1 : Thread := Thread.mk0 "b" (some "g") "p" "right" rdX

/-- Member `c`'s concurrent affirmative `saveSwipe` call. -/
def raceT2 : Thread := Thread.mk0 "c" (some "g") "p" "right" rdX

/-- The interleaving: both calls write their votes, then both run their whole
evaluation — including the existing-match read — before either writes the
match document, and then both write it. -/
def raceSchedule : List Bool :=
  [true, false, true, true, true, true, true, true,
   false, false, false, false, false, false, true, false]

/-- The outcome of the race. -/
def raceOutcome : DB × Thread × Thread := run2 1 raceSchedule raceDB raceT1 raceT2

/-- Model validation: run alone on the race database, `b`'s call reaches the
same database and returns the same result as the direct `saveSwipe` function. -/
theorem runAlone_agrees_with_saveSwipe :
    (runAlone 1 8 raceDB raceT1).1 = (saveSwipe raceDB "b" (some "g") "p" "right" rdX 1).1 ∧
    (runAlone 1 8 raceDB raceT1).2.result = (saveSwipe raceDB "b" (some "g") "p" "right" rdX 1).2 ∧
    (runAlone 1 8 raceDB raceT1).2.pc = PC.finished := by decide

/-!
## Store lemmas
-/

theorem setDoc_setDoc_self (c : Coll α) (k : String) (v w : α) :
    setDoc (setDoc c k v) k w = setDoc c k w := by
  simp [setDoc, List.filter_filter]

theorem getDoc_setDoc_self (c : Coll α) (k : String) (v : α) :
    getDoc (setDoc c k v) k = some v := by
  simp [getDoc, setDoc, List.find?_cons]

theorem setDoc_length_le (c : Coll α) (k : String) (v : α) :
    (setDoc c k v).length ≤ c.length + 1 := by
  simp only [setDoc, List.length_cons]
  exact Nat.add_le_add_right (List.length_filter_le _ _) 1

/-!
## Shape of the match evaluation
-/

/-- `evalRestaurantMatch` either leaves the database untouched and returns
`none`, or — when every guard of the source passes — writes exactly one match
document and returns it. -/
theorem evalRestaurantMatch_shape (db : DB) (u : String) (g : Option String) (p d : String)
    (rd : RestaurantData) (now : Nat) :
    evalRestaurantMatch db u g p d rd now = (db, none) ∨
    (∃ gid g0,
      g = some gid ∧ d = "right" ∧ getDoc db.groups gid = some g0 ∧
      2 ≤ g0.members.length ∧
      requiredSwipes g0.members.length ≤ restRightCount db.swipes g0.members u p gid ∧
      getDoc db.matchDocs (matchKey gid p) = none ∧
      evalRestaurantMatch db u g p d rd now =
        ((createMatch db gid p rd g0.members
            (restRightCount db.swipes g0.members u p gid) now).1,
         some (createMatch db gid p rd g0.members
            (restRightCount db.swipes g0.members u p gid) now).2)) := by
  unfold evalRestaurantMatch
  by_cases hd : d = "right"
  · subst hd
    cases g with
    | none => exact Or.inl (by simp)
    | some gid =>
      cases hg : getDoc db.groups gid with
      | none => exact Or.inl (by simp [hg])
      | some g0 =>
        by_cases hlen : g0.members.length < 2
        · exact Or.inl (by simp [hg, hlen])
        · by_cases hth : requiredSwipes g0.members.length ≤
              restRightCount db.swipes g0.members u p gid
          · cases hm : getDoc db.matchDocs (matchKey gid p) with
            | some m => exact Or.inl (by simp [hg, hlen, hth, hm])
            | none =>
              refine Or.inr ⟨gid, g0, rfl, rfl, hg, by omega, hth, hm, ?_⟩
              simp [hg, hlen, hth, hm]
          · exact Or.inl (by simp [hg, hlen, hth])
  · exact Or.inl (by simp [hd])

/-- `evalRestaurantMatch` never touches the swipes, groups or recipe
collections. -/
theorem evalRestaurantMatch_preserves (db : DB) (u : String) (g : Option String) (p d : String)
    (rd : RestaurantData) (now : Nat) :
    (evalRestaurantMatch db u g p d rd now).1.swipes = db.swipes ∧
    (evalRestaurantMatch db u g p d rd now).1.groups = db.groups ∧
    (evalRestaurantMatch db u g p d rd now).1.recipeSwipes = db.recipeSwipes ∧
    (evalRestaurantMatch db u g p d rd now).1.recipeMatches = db.recipeMatches := by
  rcases evalRestaurantMatch_shape db u g p d rd now with h | ⟨gid, g0, _, _, _, _, _, _, h⟩ <;>
    simp [h, createMatch]

/-- If a match document already exists at the key, the evaluation is a no-op
returning `none`. -/
theorem evalRestaurantMatch_existing (db : DB) (u gid p d : String) (rd : RestaurantData)
    (now : Nat) (m : MatchDoc) (h : getDoc db.matchDocs (matchKey gid p) = some m) :
    evalRestaurantMatch db u (some gid) p d rd now = (db, none) := by
  rcases evalRestaurantMatch_shape db u (some gid) p d rd now with
    h2 | ⟨gid2, g0, hg2, _, _, _, _, hm, _⟩
  · exact h2
  · obtain rfl := Option.some.inj hg2
    rw [h] at hm
    cases hm

/-- Claim C1: `requiredSwipes` returns `memberCount` for member counts 2 and 3
(unanimous) and `floor(memberCount/2) + 1` for member counts ≥ 4 (strict
majority). -/
theorem C1_requiredSwipes_thresholds (memberCount : Nat) :
    (memberCount = 2 ∨ memberCount = 3 → requiredSwipes memberCount = memberCount) ∧
    (4 ≤ memberCount → requiredSwipes memberCount = memberCount / 2 + 1) := by
  constructor
  · rintro (rfl | rfl) <;> rfl
  · intro h
    have h3 : ¬ memberCount ≤ 3 := by omega
    simp [requiredSwipes, h3]

/-- Witness for C1 at member counts 2, 3 and 4. -/
theorem C1_requiredSwipes_thresholds_witness :
    requiredSwipes 2 = 2 ∧ requiredSwipes 3 = 3 ∧ requiredSwipes 4 = 4 / 2 + 1 :=
  ⟨(C1_requiredSwipes_thresholds 2).1 (Or.inl rfl),
   (C1_requiredSwipes_thresholds 3).1 (Or.inr rfl),
   (C1_requiredSwipes_thresholds 4).2 (by decide)⟩

/-- Counterexample to C4 as stated: for `memberCount = 1` (and likewise `0`)
the inequality `affirmativeCount ≥ requiredSwipes memberCount` does hold, e.g.
with one affirmative vote, since `requiredSwipes 1 = 1` and `requiredSwipes 0
= 0`. -/
theorem C4_threshold_inequality_holds_cex :
    requiredSwipes 1 ≤ 1 ∧ requiredSwipes 0 ≤ 0 := by decide

/-- Claim C4 (amended): although the threshold inequality itself can hold for
member counts 0 and 1, `saveSwipe` never creates a match in a scope with
fewer than two members: if the group document is missing or lists fewer than
two members, the call returns `null` and leaves the `matches` collection
unchanged. -/
theorem C4_small_group_no_match (db : DB) (userId gid placeId direction : String)
    (rd : RestaurantData) (now : Nat)
    (h : ∀ g, getDoc db.groups gid = some g → g.members.length < 2) :
    (saveSwipe db userId (some gid) placeId direction rd now).2 = none ∧
    (saveSwipe db userId (some gid) placeId direction rd now).1.matchDocs = db.matchDocs := by
  unfold saveSwipe evalRestaurantMatch afterVote
  by_cases hd : direction = "right"
  · simp only [hd, if_pos rfl]
    cases hg : getDoc db.groups gid with
    | none => simp [hg]
    | some g =>
      have := h g hg
      simp [hg, this]
  · simp [hd]

/-- Witness for C4: a singleton group. -/
theorem C4_small_group_no_match_witness :
    (saveSwipe { groups := [("g", { members := ["a"] })], swipes := [], matchDocs := [],
                 recipeSwipes := [], recipeMatches := [] }
        "a" (some "g") "p" "right" rdX 0).2 = none ∧
    (saveSwipe { groups := [("g", { members := ["a"] })], swipes := [], matchDocs := [],
                 recipeSwipes := [], recipeMatches := [] }
        "a" (some "g") "p" "right" rdX 0).1.matchDocs = [] :=
  C4_small_group_no_match _ "a" "g" "p" "right" rdX 0
    (by intro g hg; cases hg; decide)

/-- Counterexample to C9 as stated: the `matchData` object written by
`createMatch` has no `requiredCount` field (it stores `memberCount` instead,
from which the threshold is derivable). -/
theorem C9_no_requiredCount_field : "requiredCount" ∉ matchDataFieldNames := by decide

/-- Counterexample to C7 as stated: the solo swipe key is shared with the
group whose id is the literal string `solo` — for the same user and place,
`saveSwipe` with `groupId = null` and with `groupId = 'solo'` write the same
document id. -/
theorem C7_solo_key_shared_with_group_named_solo :
    swipeKey "u" none "p" = swipeKey "u" (some "solo") "p" := rfl

/-- An empty database. -/
def emptyDB : DB :=
  { groups := [], swipes := [], matchDocs := [], recipeSwipes := [], recipeMatches := [] }

/-- The pre-existing match document of the C3 counterexample scenario. -/
def c3match : MatchDoc :=
  { groupId := "g", members := ["a", "b", "c"], memberCount := 3, rightCount := 3,
    unanimous := true, placeId := "p", restaurantName := rdX.name,
    restaurantPhoto := rdX.photo, restaurantRating := rdX.rating,
    restaurantCuisines := rdX.cuisines, restaurantAddress := rdX.address,
    restaurantPriceLevel := rdX.priceLevel, matchedAt := 0, status := "active" }

/-- C3 counterexample scenario: group `g` of `a`, `b`, `c`, with right swipes
by `a` and `b` already recorded and the match already materialized. -/
def c3db : DB :=
  { groups := [("g", { members := ["a", "b", "c"] })]
    swipes := [(swipeKey "a" (some "g") "p", swipeDocFor "a" (some "g") "p" "right" rdX 0),
               (swipeKey "b" (some "g") "p", swipeDocFor "b" (some "g") "p" "right" rdX 0)]
    matchDocs := [(matchKey "g" "p", c3match)]
    recipeSwipes := []
    recipeMatches := [] }

/-- Counterexample to C3 as stated: `c`'s affirmative vote meets the
threshold while a match already exists, and `saveSwipe` returns `null` — not
the pre-existing match record. -/
theorem C3_existing_match_returns_null_cex :
    getDoc c3db.matchDocs (matchKey "g" "p") = some c3match ∧
    requiredSwipes 3 ≤
      restRightCount (saveSwipe c3db "c" (some "g") "p" "right" rdX 1).1.swipes
        ["a", "b", "c"] "c" "p" "g" ∧
    (saveSwipe c3db "c" (some "g") "p" "right" rdX 1).2 = none := by decide

/-- Claim C3 (amended): when a match document already exists for the
(group, item) key, `saveSwipe` creates no second match, raises no error, and
leaves the pre-existing record in place — but it returns `null`, not the
pre-existing record. -/
theorem C3_existing_match_noop (db : DB) (u gid p d : String) (rd : RestaurantData)
    (now : Nat) (m : MatchDoc)
    (h : getDoc db.matchDocs (matchKey gid p) = some m) :
    (saveSwipe db u (some gid) p d rd now).2 = none ∧
    (saveSwipe db u (some gid) p d rd now).1.matchDocs = db.matchDocs ∧
    getDoc (saveSwipe db u (some gid) p d rd now).1.matchDocs (matchKey gid p) = some m := by
  have h' : getDoc (afterVote db u (some gid) p d rd now).matchDocs (matchKey gid p) =
      some m := h
  have he := evalRestaurantMatch_existing (afterVote db u (some gid) p d rd now)
    u gid p d rd now m h'
  unfold saveSwipe
  rw [he]
  exact ⟨rfl, rfl, h⟩

/-- Witness for C3 on the counterexample scenario. -/
theorem C3_existing_match_noop_witness :
    (saveSwipe c3db "c" (some "g") "p" "right" rdX 1).2 = none ∧
    (saveSwipe c3db "c" (some "g") "p" "right" rdX 1).1.matchDocs = c3db.matchDocs ∧
    getDoc (saveSwipe c3db "c" (some "g") "p" "right" rdX 1).1.matchDocs (matchKey "g" "p") =
      some c3match :=
  C3_existing_match_noop c3db "c" "g" "p" "right" rdX 1 c3match (by decide)

/-- Claim C8: the vote write always persists — no later step of the match
evaluation undoes it — and a missing group document makes `saveSwipe` return
`null` without error, the vote still recorded. -/
theorem C8_vote_persists_missing_group (db : DB) (u : String) (g : Option String)
    (p d : String) (rd : RestaurantData) (now : Nat) :
    (saveSwipe db u g p d rd now).1.swipes =
      setDoc db.swipes (swipeKey u g p) (swipeDocFor u g p d rd now) ∧
    (∀ gid, g = some gid → getDoc db.groups gid = none →
      saveSwipe db u g p d rd now = (afterVote db u g p d rd now, none)) := by
  constructor
  · have hp := (evalRestaurantMatch_preserves (afterVote db u g p d rd now) u g p d rd now).1
    unfold saveSwipe
    rw [hp]
    rfl
  · rintro gid rfl hnone
    unfold saveSwipe
    rcases evalRestaurantMatch_shape (afterVote db u (some gid) p d rd now)
        u (some gid) p d rd now with h | ⟨gid2, g0, hg2, _, hgrp, _, _, _, _⟩
    · exact h
    · obtain rfl := Option.some.inj hg2
      have e : (afterVote db u (some gid) p d rd now).groups = db.groups := rfl
      rw [e, hnone] at hgrp
      cases hgrp

/-- Witness for C8: a vote in a group whose document does not exist. -/
theorem C8_vote_persists_missing_group_witness :
    (saveSwipe emptyDB "a" (some "g") "p" "right" rdX 0).1.swipes =
      setDoc emptyDB.swipes (swipeKey "a" (some "g") "p")
        (swipeDocFor "a" (some "g") "p" "right" rdX 0) ∧
    saveSwipe emptyDB "a" (some "g") "p" "right" rdX 0 =
      (afterVote emptyDB "a" (some "g") "p" "right" rdX 0, none) :=
  ⟨(C8_vote_persists_missing_group emptyDB "a" (some "g") "p" "right" rdX 0).1,
   (C8_vote_persists_missing_group emptyDB "a" (some "g") "p" "right" rdX 0).2 "g" rfl
     (by decide)⟩

/-- The swipes collection after `saveSwipe` is exactly the input collection
with the vote upserted at its deterministic key. -/
theorem saveSwipe_fst_swipes (db : DB) (u : String) (g : Option String) (p d : String)
    (rd : RestaurantData) (now : Nat) :
    (saveSwipe db u g p d rd now).1.swipes =
      setDoc db.swipes (swipeKey u g p) (swipeDocFor u g p d rd now) := by
  have hp := (evalRestaurantMatch_preserves (afterVote db u g p d rd now) u g p d rd now).1
  unfold saveSwipe
  rw [hp]
  rfl

/-- Re-writing the identical vote into a database that already holds it is a
no-op. -/
theorem afterVote_idem (db : DB) (u : String) (g : Option String) (p d : String)
    (rd : RestaurantData) (now : Nat) (db1 : DB)
    (h : db1.swipes = setDoc db.swipes (swipeKey u g p) (swipeDocFor u g p d rd now)) :
    afterVote db1 u g p d rd now = db1 := by
  unfold afterVote
  rw [h, setDoc_setDoc_self, ← h]

/-- Re-running the match evaluation on its own output state changes nothing:
either nothing was written the first time and the same branch repeats, or a
match was written and the second run finds it via the existing-match check. -/
theorem evalRestaurantMatch_fixpoint (db : DB) (u : String) (g : Option String) (p d : String)
    (rd : RestaurantData) (now : Nat) :
    (evalRestaurantMatch (evalRestaurantMatch db u g p d rd now).1 u g p d rd now).1 =
      (evalRestaurantMatch db u g p d rd now).1 := by
  rcases evalRestaurantMatch_shape db u g p d rd now with
    h | ⟨gid, g0, hgid, hd, hg, hlen, hth, hm, h⟩
  · rw [h, h]
  · rw [h]
    subst hgid
    subst hd
    have hx : getDoc (createMatch db gid p rd g0.members
        (restRightCount db.swipes g0.members u p gid) now).1.matchDocs (matchKey gid p) =
        some (createMatch db gid p rd g0.members
          (restRightCount db.swipes g0.members u p gid) now).2 := by
      simp [createMatch, getDoc_setDoc_self]
    rw [evalRestaurantMatch_existing _ u gid p "right" rd now _ hx]

/-- Claim C5: calling `saveSwipe` twice with identical arguments leaves the
database (in particular the vote ledger) in an identical state, with a single
vote record at the deterministic key, and the two calls together create at
most one match document. -/
theorem C5_saveSwipe_idempotent (db : DB) (u : String) (g : Option String) (p d : String)
    (rd : RestaurantData) (now : Nat) :
    (saveSwipe (saveSwipe db u g p d rd now).1 u g p d rd now).1 =
      (saveSwipe db u g p d rd now).1 ∧
    getDoc (saveSwipe db u g p d rd now).1.swipes (swipeKey u g p) =
      some (swipeDocFor u g p d rd now) ∧
    (saveSwipe db u g p d rd now).1.matchDocs.length ≤ db.matchDocs.length + 1 := by
  refine ⟨?_, ?_, ?_⟩
  · have hA : afterVote (saveSwipe db u g p d rd now).1 u g p d rd now =
        (saveSwipe db u g p d rd now).1 :=
      afterVote_idem db u g p d rd now _ (saveSwipe_fst_swipes db u g p d rd now)
    show (evalRestaurantMatch (afterVote (saveSwipe db u g p d rd now).1 u g p d rd now)
      u g p d rd now).1 = (saveSwipe db u g p d rd now).1
    rw [hA]
    exact evalRestaurantMatch_fixpoint (afterVote db u g p d rd now) u g p d rd now
  · rw [saveSwipe_fst_swipes]
    exact getDoc_setDoc_self _ _ _
  · rcases evalRestaurantMatch_shape (afterVote db u g p d rd now) u g p d rd now with
      h | ⟨gid, g0, _, _, _, _, _, _, h⟩
    · show (evalRestaurantMatch (afterVote db u g p d rd now) u g p d rd now).1.matchDocs.length ≤
        db.matchDocs.length + 1
      rw [h]
      exact Nat.le_succ_of_le (Nat.le_refl _)
    · show (evalRestaurantMatch (afterVote db u g p d rd now) u g p d rd now).1.matchDocs.length ≤
        db.matchDocs.length + 1
      rw [h]
      exact setDoc_length_le _ _ _

/-- Well-formedness of the swipes collection: every document sits at the
deterministic id that `saveSwipe` computes from the document's own fields.
Every write performed by `saveSwipe` maintains this. -/
def SwipesWF (swipes : Coll SwipeDoc) : Prop :=
  ∀ kv ∈ swipes, kv.1 = swipeKey kv.2.userId kv.2.groupId kv.2.placeId

theorem swipesWF_setDoc (swipes : Coll SwipeDoc) (u : String) (g : Option String) (p d : String)
    (rd : RestaurantData) (now : Nat) (h : SwipesWF swipes) :
    SwipesWF (setDoc swipes (swipeKey u g p) (swipeDocFor u g p d rd now)) := by
  intro kv hkv
  simp only [setDoc, List.mem_cons] at hkv
  rcases hkv with rfl | hkv
  · rfl
  · exact h kv (List.mem_of_mem_filter hkv)

/-- Claim C6: a right vote followed by a left vote on the same (group, place)
overwrites the ledger entry at the same deterministic key with the left vote,
and the member no longer counts as affirmative — neither in the resulting
ledger state nor in the ledger state any subsequent `saveSwipe` evaluation by
another member reads. -/
theorem C6_right_then_left_excluded (db db1 db2 : DB) (u gid p : String)
    (rd rd2 : RestaurantData) (t1 t2 : Nat) (hwf : SwipesWF db.swipes)
    (h1 : db1 = (saveSwipe db u (some gid) p "right" rd t1).1)
    (h2 : db2 = (saveSwipe db1 u (some gid) p "left" rd2 t2).1) :
    getDoc db2.swipes (swipeKey u (some gid) p) =
      some (swipeDocFor u (some gid) p "left" rd2 t2) ∧
    memberSwipedRight db2.swipes u p gid = false ∧
    ∀ (w : String) (g2 : Option String) (p2 d2 : String) (rd3 : RestaurantData) (t3 : Nat),
      w ≠ u → memberSwipedRight (saveSwipe db2 w g2 p2 d2 rd3 t3).1.swipes u p gid = false := by
  have hs2 : db2.swipes = setDoc db.swipes (swipeKey u (some gid) p)
      (swipeDocFor u (some gid) p "left" rd2 t2) := by
    rw [h2, saveSwipe_fst_swipes, h1, saveSwipe_fst_swipes, setDoc_setDoc_self]
  have key2 : memberSwipedRight db2.swipes u p gid = false := by
    rw [hs2]
    unfold memberSwipedRight
    apply List.any_eq_false.mpr
    intro kv hkv
    simp only [setDoc, List.mem_cons] at hkv
    rcases hkv with rfl | hkv
    · simp [swipeDocFor]
    · have hmem := List.mem_of_mem_filter hkv
      have hne := List.of_mem_filter hkv
      intro hpred
      simp only [Bool.and_eq_true, beq_iff_eq] at hpred
      obtain ⟨⟨⟨hu, hp⟩, hgq⟩, _⟩ := hpred
      have hkey := hwf kv hmem
      rw [hu, hp, hgq] at hkey
      rw [hkey] at hne
      simp at hne
  refine ⟨?_, key2, ?_⟩
  · rw [hs2]
    exact getDoc_setDoc_self _ _ _
  · intro w g2 p2 d2 rd3 t3 hw
    rw [saveSwipe_fst_swipes]
    unfold memberSwipedRight
    apply List.any_eq_false.mpr
    intro kv hkv
    simp only [setDoc, List.mem_cons] at hkv
    rcases hkv with rfl | hkv
    · simp [swipeDocFor, hw]
    · have hmem := List.mem_of_mem_filter hkv
      exact (List.any_eq_false.mp key2) kv hmem

/-- Witness for C6: after `a` votes right then left in group `g`, the
affirmative-voter query for `a` is empty. -/
theorem C6_right_then_left_excluded_witness :
    memberSwipedRight
      (saveSwipe (saveSwipe emptyDB "a" (some "g") "p" "right" rdX 0).1
        "a" (some "g") "p" "left" rdX 1).1.swipes "a" "p" "g" = false :=
  (C6_right_then_left_excluded emptyDB _ _ "a" "g" "p" rdX rdX 0 1
    (by simp [SwipesWF, emptyDB]) rfl rfl).2.1

/-- Right-cancellation of string concatenation. -/
theorem string_append_right_cancel (a b c : String) (h : a ++ c = b ++ c) : a = b := by
  have h2 : a.data ++ c.data = b.data ++ c.data := by
    have h3 := congrArg String.data h
    simpa [String.data_append] using h3
  exact String.ext (List.append_cancel_right h2)

/-- Left-cancellation of string concatenation. -/
theorem string_append_left_cancel (a b c : String) (h : c ++ a = c ++ b) : a = b := by
  have h2 : c.data ++ a.data = c.data ++ b.data := by
    have h3 := congrArg String.data h
    simpa [String.data_append] using h3
  exact String.ext (List.append_cancel_left h2)

/-- The middle (group) component of a swipe key is determined by the key when
user and place agree. -/
theorem swipeKey_group_component (u p x y : String)
    (h : u ++ "_" ++ x ++ "_" ++ p = u ++ "_" ++ y ++ "_" ++ p) : x = y :=
  string_append_left_cancel _ _ _
    (string_append_right_cancel _ _ _ (string_append_right_cancel _ _ _ h))

/-- Claim C7 (amended): with `groupId = null` the swipe is persisted under the
per-user solo key, no match is ever created and the call returns `null`
regardless of vote direction; for the same user and place, the solo key
coincides with a group-scoped swipe key only for a group whose id is the
literal string `solo`. -/
theorem C7_solo_scope_no_match (db : DB) (u p d : String) (rd : RestaurantData) (now : Nat) :
    saveSwipe db u none p d rd now = (afterVote db u none p d rd now, none) ∧
    (saveSwipe db u none p d rd now).1.matchDocs = db.matchDocs ∧
    getDoc (saveSwipe db u none p d rd now).1.swipes (swipeKey u none p) =
      some (swipeDocFor u none p d rd now) ∧
    ∀ g : String, swipeKey u none p = swipeKey u (some g) p → g = "solo" := by
  have h0 : evalRestaurantMatch (afterVote db u none p d rd now) u none p d rd now =
      (afterVote db u none p d rd now, none) := by
    rcases evalRestaurantMatch_shape (afterVote db u none p d rd now) u none p d rd now with
      h | ⟨gid, g0, hgid, _⟩
    · exact h
    · cases hgid
  refine ⟨h0, ?_, ?_, ?_⟩
  · show (evalRestaurantMatch (afterVote db u none p d rd now) u none p d rd now).1.matchDocs =
      db.matchDocs
    rw [h0]
    rfl
  · rw [saveSwipe_fst_swipes]
    exact getDoc_setDoc_self _ _ _
  · intro g h
    exact (swipeKey_group_component u p "solo" g h).symm

/-- Witness for C7: concrete solo swipe, and the solo/group key coincidence
discharged at the group id `solo`. -/
theorem C7_solo_scope_no_match_witness :
    saveSwipe emptyDB "a" none "p" "right" rdX 0 =
      (afterVote emptyDB "a" none "p" "right" rdX 0, none) ∧
    getDoc (saveSwipe emptyDB "a" none "p" "right" rdX 0).1.swipes (swipeKey "a" none "p") =
      some (swipeDocFor "a" none "p" "right" rdX 0) ∧
    "solo" = "solo" :=
  ⟨(C7_solo_scope_no_match emptyDB "a" "p" "right" rdX 0).1,
   (C7_solo_scope_no_match emptyDB "a" "p" "right" rdX 0).2.2.1,
   (C7_solo_scope_no_match emptyDB "a" "p" "right" rdX 0).2.2.2 "solo" rfl⟩

/-- Claim C9 (amended): every match record created by `saveSwipe` carries the
sorted member-set snapshot, the member count (`requiredSwipes` is derivable
from it; the required count itself is not a stored field), an observed
affirmative count that met the threshold, the unanimous flag
`rightCount == memberCount`, status `active`, the creation timestamp, and the
denormalized restaurant metadata. -/
theorem C9_match_record_fields (db : DB) (u gid p : String) (rd : RestaurantData)
    (now : Nat) (m : MatchDoc)
    (h : (saveSwipe db u (some gid) p "right" rd now).2 = some m) :
    ∃ g0 : GroupDoc, getDoc db.groups gid = some g0 ∧
      m.groupId = gid ∧ m.placeId = p ∧
      m.members = sortStrings g0.members ∧
      m.memberCount = g0.members.length ∧
      requiredSwipes m.memberCount ≤ m.rightCount ∧
      m.unanimous = (m.rightCount == m.memberCount) ∧
      m.status = "active" ∧ m.matchedAt = now ∧
      m.restaurantName = rd.name ∧ m.restaurantPhoto = rd.photo ∧
      m.restaurantRating = rd.rating ∧ m.restaurantCuisines = rd.cuisines ∧
      m.restaurantAddress = rd.address ∧ m.restaurantPriceLevel = rd.priceLevel := by
  rcases evalRestaurantMatch_shape (afterVote db u (some gid) p "right" rd now)
      u (some gid) p "right" rd now with h2 | ⟨gid2, g0, hgid, _, hg, _, hth, _, h2⟩
  · unfold saveSwipe at h
    rw [h2] at h
    cases h
  · obtain rfl := Option.some.inj hgid
    unfold saveSwipe at h
    rw [h2] at h
    have hm := Option.some.inj h
    subst hm
    have hg' : getDoc db.groups gid = some g0 := hg
    refine ⟨g0, hg', ?_, ?_, ?_, ?_, ?_, ?_, ?_, ?_, ?_, ?_, ?_, ?_, ?_, ?_⟩
    · simp [createMatch]
    · simp [createMatch]
    · simp [createMatch]
    · simp [createMatch]
    · simpa [createMatch] using hth
    · simp [createMatch]
    · simp [createMatch]
    · simp [createMatch]
    · simp [createMatch]
    · simp [createMatch]
    · simp [createMatch]
    · simp [createMatch]
    · simp [createMatch]
    · simp [createMatch]

/-- C9 witness scenario: group `g` of `b` and `a` (listed unsorted), with `a`
already affirmative; `b`'s vote creates the match. -/
def c9db : DB :=
  { groups := [("g", { members := ["b", "a"] })]
    swipes := [(swipeKey "a" (some "g") "p", swipeDocFor "a" (some "g") "p" "right" rdX 0)]
    matchDocs := []
    recipeSwipes := []
    recipeMatches := [] }

/-- The match record created in the C9 witness scenario. -/
def c9match : MatchDoc :=
  { groupId := "g", members := ["a", "b"], memberCount := 2, rightCount := 2,
    unanimous := true, placeId := "p", restaurantName := rdX.name,
    restaurantPhoto := rdX.photo, restaurantRating := rdX.rating,
    restaurantCuisines := rdX.cuisines, restaurantAddress := rdX.address,
    restaurantPriceLevel := rdX.priceLevel, matchedAt := 1, status := "active" }

/-- Witness for C9 on the concrete creation scenario. -/
theorem C9_match_record_fields_witness :
    ∃ g0 : GroupDoc, getDoc c9db.groups "g" = some g0 ∧
      c9match.groupId = "g" ∧ c9match.placeId = "p" ∧
      c9match.members = sortStrings g0.members ∧
      c9match.memberCount = g0.members.length ∧
      requiredSwipes c9match.memberCount ≤ c9match.rightCount ∧
      c9match.unanimous = (c9match.rightCount == c9match.memberCount) ∧
      c9match.status = "active" ∧ c9match.matchedAt = 1 ∧
      c9match.restaurantName = rdX.name ∧ c9match.restaurantPhoto = rdX.photo ∧
      c9match.restaurantRating = rdX.rating ∧ c9match.restaurantCuisines = rdX.cuisines ∧
      c9match.restaurantAddress = rdX.address ∧
      c9match.restaurantPriceLevel = rdX.priceLevel :=
  C9_match_record_fields c9db "b" "g" "p" rdX 1 c9match (by decide)

/-- Counting folds agree when the tested predicates agree on the list. -/
theorem foldl_count_congr (l : List String) (f g : String → Bool) (n : Nat)
    (h : ∀ m ∈ l, f m = g m) :
    l.foldl (fun cnt m => if f m then cnt + 1 else cnt) n =
      l.foldl (fun cnt m => if g m then cnt + 1 else cnt) n := by
  induction l generalizing n with
  | nil => rfl
  | cons x xs ih =>
    simp only [List.foldl_cons]
    rw [h x (List.mem_cons_self x xs)]
    exact ih _ (fun m hm => h m (List.mem_cons_of_mem x hm))

/-- `evalRestaurantMatch` on an affirmative vote once the group document is
known. -/
theorem evalRestaurantMatch_with_group (db : DB) (u gid p : String) (rd : RestaurantData)
    (now : Nat) (g0 : GroupDoc) (hg : getDoc db.groups gid = some g0) :
    evalRestaurantMatch db u (some gid) p "right" rd now =
      (if g0.members.length < 2 then (db, none)
       else if requiredSwipes g0.members.length ≤
           restRightCount db.swipes g0.members u p gid then
         match getDoc db.matchDocs (matchKey gid p) with
         | some _ => (db, none)
         | none =>
           ((createMatch db gid p rd g0.members
               (restRightCount db.swipes g0.members u p gid) now).1,
            some (createMatch db gid p rd g0.members
               (restRightCount db.swipes g0.members u p gid) now).2)
       else (db, none)) := by
  unfold evalRestaurantMatch
  simp [hg]

/-- `evalRecipeMatch` on an affirmative vote once the group document is
known. -/
theorem evalRecipeMatch_with_group (db : DB) (u gid : String) (rid : Nat) (rcd : RecipeData)
    (now : Nat) (g0 : GroupDoc) (hgid : gid ≠ "") (hg : getDoc db.groups gid = some g0) :
    evalRecipeMatch db u gid rid "right" rcd now =
      (if g0.members.length < 2 then (db, none)
       else if requiredSwipes g0.members.length ≤
           recipeRightCount db.recipeSwipes g0.members u rid gid then
         match getDoc db.recipeMatches (recipeMatchKey gid rid) with
         | some _ => (db, none)
         | none =>
           ((createRecipeMatch db gid rid rcd g0.members
               (recipeRightCount db.recipeSwipes g0.members u rid gid) now).1,
            some (createRecipeMatch db gid rid rcd g0.members
               (recipeRightCount db.recipeSwipes g0.members u rid gid) now).2)
       else (db, none)) := by
  unfold evalRecipeMatch
  simp [hg, hgid]

/-- Claim C10: on the same group member set, with each other member's latest
vote reading the same on both sides, the restaurant and recipe pipelines use
the same threshold, compute the same affirmative count, decide creation under
the same condition, and produce matches with equal `memberCount`,
`rightCount`, `unanimous` and member snapshots. -/
theorem C10_pipelines_equivalent (db : DB) (u gid p : String) (rid : Nat)
    (rd : RestaurantData) (rcd : RecipeData) (now : Nat) (g0 : GroupDoc)
    (hgid : gid ≠ "")
    (hg : getDoc db.groups gid = some g0)
    (hmatch : (getDoc db.matchDocs (matchKey gid p)).isSome =
      (getDoc db.recipeMatches (recipeMatchKey gid rid)).isSome)
    (hvotes : ∀ m ∈ g0.members, m ≠ u →
      memberSwipedRight (afterVote db u (some gid) p "right" rd now).swipes m p gid =
        recipeSwipedRight (afterRecipeVote db u gid rid "right" rcd now).recipeSwipes m rid gid) :
    ((saveSwipe db u (some gid) p "right" rd now).2.isSome =
      (saveRecipeSwipe db u gid rid "right" rcd now).2.isSome) ∧
    (∀ m1 m2, (saveSwipe db u (some gid) p "right" rd now).2 = some m1 →
      (saveRecipeSwipe db u gid rid "right" rcd now).2 = some m2 →
      m1.memberCount = m2.memberCount ∧ m1.rightCount = m2.rightCount ∧
        m1.unanimous = m2.unanimous ∧ m1.members = m2.members) := by
  have hcount : restRightCount (afterVote db u (some gid) p "right" rd now).swipes
      g0.members u p gid =
      recipeRightCount (afterRecipeVote db u gid rid "right" rcd now).recipeSwipes
        g0.members u rid gid := by
    unfold restRightCount recipeRightCount
    apply foldl_count_congr
    intro m hm
    exact hvotes m (List.mem_of_mem_filter hm) (by simpa using List.of_mem_filter hm)
  have hgA : getDoc (afterVote db u (some gid) p "right" rd now).groups gid = some g0 := hg
  have hgB : getDoc (afterRecipeVote db u gid rid "right" rcd now).groups gid = some g0 := hg
  have eA := evalRestaurantMatch_with_group (afterVote db u (some gid) p "right" rd now)
    u gid p rd now g0 hgA
  have eB := evalRecipeMatch_with_group (afterRecipeVote db u gid rid "right" rcd now)
    u gid rid rcd now g0 hgid hgB
  have hmA : getDoc (afterVote db u (some gid) p "right" rd now).matchDocs (matchKey gid p) =
      getDoc db.matchDocs (matchKey gid p) := rfl
  have hmB : getDoc (afterRecipeVote db u gid rid "right" rcd now).recipeMatches
      (recipeMatchKey gid rid) = getDoc db.recipeMatches (recipeMatchKey gid rid) := rfl
  unfold saveSwipe saveRecipeSwipe
  rw [eA, eB, hmA, hmB, ← hcount]
  by_cases hlen : g0.members.length < 2
  · simp [hlen]
  · simp only [if_neg hlen]
    by_cases hth : requiredSwipes g0.members.length ≤
        restRightCount (afterVote db u (some gid) p "right" rd now).swipes g0.members u p gid
    · simp only [if_pos hth]
      cases hm1 : getDoc db.matchDocs (matchKey gid p) with
      | some m0 =>
        cases hm2 : getDoc db.recipeMatches (recipeMatchKey gid rid) with
        | some r0 => simp
        | none =>
          rw [hm1, hm2] at hmatch
          simp at hmatch
      | none =>
        cases hm2 : getDoc db.recipeMatches (recipeMatchKey gid rid) with
        | some r0 =>
          rw [hm1, hm2] at hmatch
          simp at hmatch
        | none =>
          constructor
          · simp
          · intro m1 m2 h1 h2
            obtain rfl := Option.some.inj h1
            obtain rfl := Option.some.inj h2
            refine ⟨?_, ?_, ?_, ?_⟩ <;> simp [createMatch, createRecipeMatch]
    · simp [hth]

/-- Concrete recipe metadata used by the C10 witness. -/
def rcdX : RecipeData :=
  { title := "Stew", image := "img", summary := some "s", readyInMinutes := some 30,
    servings := some 4, cuisines := some ["x"], diets := none,
    ingredients := some ["y"], sourceUrl := none }

/-- C10 witness scenario: group `g` of `a` and `b`, empty ledgers. -/
def c10db : DB :=
  { groups := [("g", { members := ["a", "b"] })]
    swipes := [], matchDocs := [], recipeSwipes := [], recipeMatches := [] }

/-- Witness for C10: in the concrete scenario both pipelines make the same
creation decision. -/
theorem C10_pipelines_equivalent_witness :
    (saveSwipe c10db "a" (some "g") "p" "right" rdX 0).2.isSome =
      (saveRecipeSwipe c10db "a" "g" 7 "right" rcdX 0).2.isSome :=
  (C10_pipelines_equivalent c10db "a" "g" "p" 7 rdX rcdX 0 ⟨["a", "b"]⟩
    (by decide) (by decide) (by decide) (by decide)).1

/-- Claim C2 (code bug): `saveSwipe` guards match creation with a plain
`getDoc` existence check followed by a separate `setDoc` — a read-then-decide
sequence, not an atomic conditional create.  Under the exhibited interleaving
of two concurrent threshold-crossing votes, both calls pass the existence
check and both execute `createMatch` (both return a created match, the second
write overwriting the first); only the deterministic document id keeps the
final state at a single match document. -/
theorem C2_checkThenAct_race_two_creates :
    (raceOutcome.2.1.result.isSome = true ∧ raceOutcome.2.2.result.isSome = true) ∧
    raceOutcome.1.matchDocs.length = 1 ∧
    raceOutcome.2.1.pc = PC.finished ∧ raceOutcome.2.2.pc = PC.finished := by decide

end Dinder
